import Mathlib

/-!
Shallow embedding of the flood-control subsystem of the ReadRoom API
(story-publishing backend).

The embedded code:
* `app/flood_protection.py` — class `FloodProtection` (story rate limiter);
* `app/chapter_flood_protection.py` — class `ChapterFloodProtection`
  (chapter rate limiter, counting through a Chapter⋈Story join);
* `app/routes/story.py` — handler `create_story` (calls the story limiter);
* `app/routes/chapter.py` — handler `create_chapter`.

Modelling conventions:
* wall-clock timestamps are integers (seconds); `timedelta(minutes=w)` is
  `60 * w` seconds.  `check_rate_limit` calls `datetime.utcnow()` twice —
  once when computing `time_threshold` and once when computing
  `remaining_time`, with an awaited database query in between — so the
  model takes two clock readings `now1` and `now2` with `now1 ≤ now2`
  wherever monotonicity matters;
* the database session is a record of the `stories` and `chapters` tables
  plus an availability flag; a SQL `select count(*)` is a list count, and
  the `Chapter JOIN Story ON Story.id == Chapter.story_id` is the list of
  matching (chapter, story) pairs;
* a Python `raise` is an `Except.error`; `HTTPException(status, detail)`
  and a storage-layer failure are distinct `PyError` constructors;
* Python `int(x / 60)` truncates toward zero (`Int.tdiv`), and Python
  `x % 60` returns a value in `[0, 60)` (`Int.emod`);
* rows inserted by a handler get their `id` and `created_at` from the
  database; the model passes them in as parameters.
-/

/-- Row of the `stories` table (columns used by the flood-control code). -/
structure StoryRow where
  id : Int
  author_id : Int
  created_at : Int
deriving DecidableEq, Repr

/-- Row of the `chapters` table (columns used by the flood-control code). -/
structure ChapterRow where
  id : Int
  story_id : Int
  created_at : Int
deriving DecidableEq, Repr

/-- Row of the `users` table (columns used by `create_story`/`create_chapter`). -/
structure UserRow where
  id : Int
  is_active : Bool
deriving DecidableEq, Repr

/-- The database session: the two tables the limiters read, plus an
availability flag modelling whether the underlying store can execute
queries at all. -/
structure DBSession where
  stories : List StoryRow
  chapters : List ChapterRow
  available : Bool
deriving DecidableEq, Repr

/-- An exception escaping a handler or limiter: either a FastAPI
`HTTPException(status_code, detail)` or a storage-layer failure raised by
the database driver (modelled abstractly). -/
inductive PyError where
  | httpException (status : Int) (detail : String)
  | storeFailure
deriving DecidableEq, Repr

/-- Embeds the story-counting query of `FloodProtection.check_rate_limit`
(`app/flood_protection.py` lines 40-48): count of `stories` rows with
`author_id == user_id AND created_at >= time_threshold`. -/
def DBSession.story_count_query (db : DBSession) (user_id time_threshold : Int) : Int :=
  (db.stories.countP
    (fun s => s.author_id == user_id && decide (time_threshold ≤ s.created_at)) : Int)

/-- Embeds the `ON Story.id == Chapter.story_id` join of
`ChapterFloodProtection.check_rate_limit` (`app/chapter_flood_protection.py`
lines 43-46): all (chapter, story) pairs produced by the inner join. -/
def DBSession.chapter_join_rows (db : DBSession) : List (ChapterRow × StoryRow) :=
  db.chapters.flatMap
    (fun c => (db.stories.filter (fun s => s.id == c.story_id)).map (fun s => (c, s)))

/-- Embeds the chapter-counting query of
`ChapterFloodProtection.check_rate_limit` (`app/chapter_flood_protection.py`
lines 43-53): `count(*)` over the join rows with
`Story.author_id == user_id AND Chapter.created_at >= time_threshold`. -/
def DBSession.chapter_count_query (db : DBSession) (user_id time_threshold : Int) : Int :=
  ((db.chapter_join_rows.filter
    (fun r => r.2.author_id == user_id && decide (time_threshold ≤ r.1.created_at))).length : Int)

/-- Embeds `await db.execute(query); result.scalar()` for the story count:
the read returns the count when the store is available and raises a
store-level error otherwise.  A `SELECT` does not modify the session state,
so the session is returned unchanged. -/
def DBSession.execute_story_count (db : DBSession) (user_id time_threshold : Int) :
    Except PyError Int × DBSession :=
  (if db.available then .ok (db.story_count_query user_id time_threshold)
   else .error .storeFailure, db)

/-- Embeds `await db.execute(query); result.scalar()` for the chapter count. -/
def DBSession.execute_chapter_count (db : DBSession) (user_id time_threshold : Int) :
    Except PyError Int × DBSession :=
  (if db.available then .ok (db.chapter_count_query user_id time_threshold)
   else .error .storeFailure, db)

/-- Class `FloodProtection` of `app/flood_protection.py`: `max_stories`
stories per `time_window` minutes (constructor defaults 5 and 20). -/
structure FloodProtection where
  max_stories : Int := 5
  time_window : Int := 20
deriving DecidableEq, Repr

/-- Class `ChapterFloodProtection` of `app/chapter_flood_protection.py`:
`max_chapters` chapters per `time_window` minutes (constructor defaults
10 and 20). -/
structure ChapterFloodProtection where
  max_chapters : Int := 10
  time_window : Int := 20
deriving DecidableEq, Repr

/-- Embeds `remaining_time = time_threshold + timedelta(minutes=self.time_window)
- datetime.utcnow()` (`app/flood_protection.py` line 51 and
`app/chapter_flood_protection.py` line 56), where `time_threshold` was
computed from the first clock reading `now1` and the subtracted
`datetime.utcnow()` is the second reading `now2`. -/
def remaining_time_calc (time_window now1 now2 : Int) : Int :=
  (now1 - 60 * time_window) + 60 * time_window - now2

/-- Embeds `FloodProtection.check_rate_limit(user_id, db)`
(`app/flood_protection.py` lines 22-60).  Returns `.ok true` when the user
may create a story, raises `HTTPException(429, ...)` when the window count
reaches `max_stories`, and propagates a store failure from the query. -/
def FloodProtection.check_rate_limit (fp : FloodProtection) (user_id : Int)
    (db : DBSession) (now1 now2 : Int) : Except PyError Bool × DBSession :=
  let time_threshold := now1 - 60 * fp.time_window
  match db.execute_story_count user_id time_threshold with
  | (.error e, db1) => (.error e, db1)
  | (.ok story_count, db1) =>
    if fp.max_stories ≤ story_count then
      let remaining_time := remaining_time_calc fp.time_window now1 now2
      let minutes := remaining_time.tdiv 60
      let seconds := remaining_time.emod 60
      (.error (.httpException 429
        ("Rate limit exceeded. You can create new story in " ++ toString minutes ++
          " minutes and " ++ toString seconds ++ " seconds")), db1)
    else
      (.ok true, db1)

set_option linter.unusedVariables false in
/-- Embeds `ChapterFloodProtection.check_rate_limit(story_id, user_id, db)`
(`app/chapter_flood_protection.py` lines 23-65).  The `story_id` parameter
is declared by the source but never used by the body. -/
def ChapterFloodProtection.check_rate_limit (cfp : ChapterFloodProtection)
    (story_id user_id : Int) (db : DBSession) (now1 now2 : Int) :
    Except PyError Bool × DBSession :=
  let time_threshold := now1 - 60 * cfp.time_window
  match db.execute_chapter_count user_id time_threshold with
  | (.error e, db1) => (.error e, db1)
  | (.ok chapter_count, db1) =>
    if cfp.max_chapters ≤ chapter_count then
      let remaining_time := remaining_time_calc cfp.time_window now1 now2
      let minutes := remaining_time.tdiv 60
      let seconds := remaining_time.emod 60
      (.error (.httpException 429
        ("Rate limit exceeded. You can create new chapter in " ++ toString minutes ++
          " minutes and " ++ toString seconds ++ " seconds")), db1)
    else
      (.ok true, db1)

deriving instance DecidableEq for Except

/-- Decides whether a limiter outcome is the rate-limit denial: a raised
`HTTPException` with status 429. -/
def isRateLimited : Except PyError Bool → Bool
  | .error (.httpException s _) => s == 429
  | _ => false

/-- Module-level singleton of `app/routes/story.py` line 20:
`flood_protection = FloodProtection(max_stories=5, time_window=20)`. -/
def flood_protection : FloodProtection :=
  { max_stories := 5, time_window := 20 }

/-- Request body of `POST /story/` (`StoryCreate`), restricted to the fields
the handler logic branches on. -/
structure StoryCreate where
  title : String
  cover_image_url : Option String
deriving DecidableEq, Repr

/-- Request body of `POST /chapter/` (`ChapterCreate`). -/
structure ChapterCreate where
  title : String
  content : String
  chapter_number : Int
  story_id : Int
deriving DecidableEq, Repr

/-- Observable outcome of a request handler: the HTTP status, the error
detail (empty on success), and the resulting database state. -/
structure HandlerResult where
  status : Int
  detail : String
  db : DBSession
deriving DecidableEq, Repr

/-- Embeds `create_story` of `app/routes/story.py` (lines 22-95): inactive
user → 403; then `flood_protection.check_rate_limit` (an `HTTPException`
re-raised as-is, any other exception → 500 "Failed to create story");
then the title-length checks → 422; then optional cover-image handling
(failure → 415); then the insert of the new story row → 201.
`handle_image_upload` stands for the external
`ImageSecurityUtils.handle_image_upload` collaborator; `new_id` and
`new_created_at` are the database-assigned column values of the inserted
row. -/
def create_story (story : StoryCreate) (current_user : UserRow) (db : DBSession)
    (handle_image_upload : String → Except Unit String)
    (new_id new_created_at now1 now2 : Int) : HandlerResult :=
  if current_user.is_active = false then
    ⟨403, "Your account is not active", db⟩
  else
    match flood_protection.check_rate_limit current_user.id db now1 now2 with
    | (.error (.httpException s d), db1) => ⟨s, d, db1⟩
    | (.error .storeFailure, db1) => ⟨500, "Failed to create story", db1⟩
    | (.ok _, db1) =>
      if story.title.length < 3 then
        ⟨422, "Story title must be at least 3 characters long", db1⟩
      else if 100 < story.title.length then
        ⟨422, "Story title must not exceed 100 characters", db1⟩
      else
        match story.cover_image_url with
        | none =>
          ⟨201, "",
            { db1 with stories := db1.stories ++ [⟨new_id, current_user.id, new_created_at⟩] }⟩
        | some url =>
          match handle_image_upload url with
          | .error _ => ⟨415, "Invalid image format or size", db1⟩
          | .ok _ =>
            ⟨201, "",
              { db1 with stories := db1.stories ++ [⟨new_id, current_user.id, new_created_at⟩] }⟩

/-- Embeds `create_chapter` of `app/routes/chapter.py` (lines 16-44): looks
the story up by `chapter.story_id` (`scalar_one_or_none`: no row → 404,
several rows → `MultipleResultsFound`, caught as a generic exception →
500), checks authorship (→ 403), and otherwise inserts the chapter row and
returns it (status 200).  The handler performs no rate-limit check: it
never constructs or calls `ChapterFloodProtection`.  An unavailable store
makes the lookup raise, which the generic `except` turns into a 500. -/
def create_chapter (chapter : ChapterCreate) (current_user : UserRow) (db : DBSession)
    (new_id new_created_at : Int) : HandlerResult :=
  if db.available = false then
    ⟨500, "An error occurred while creating the chapter", db⟩
  else
    match db.stories.filter (fun s => s.id == chapter.story_id) with
    | [] => ⟨404, "Story not found", db⟩
    | [story] =>
      if story.author_id ≠ current_user.id then
        ⟨403, "You're not the author of this story", db⟩
      else
        ⟨200, "",
          { db with chapters := db.chapters ++ [⟨new_id, chapter.story_id, new_created_at⟩] }⟩
    | _ => ⟨500, "An error occurred while creating the chapter", db⟩

/-- Five stories by author 1, all created at time 0: the story policy's
`max_stories = 5` is exactly reached. -/
def dbFive : DBSession :=
  ⟨[⟨1, 1, 0⟩, ⟨2, 1, 0⟩, ⟨3, 1, 0⟩, ⟨4, 1, 0⟩, ⟨5, 1, 0⟩], [], true⟩

/-- Four stories by author 1, all created at time 0: one below the story
policy's threshold. -/
def dbFour : DBSession :=
  ⟨[⟨1, 1, 0⟩, ⟨2, 1, 0⟩, ⟨3, 1, 0⟩, ⟨4, 1, 0⟩], [], true⟩

/-- Author 7 owns stories 1 and 2 and has 6 chapters under story 1 and 4
under story 2, all created at time 0: the chapter policy's
`max_chapters = 10` is exactly reached across the two stories. -/
def dbTwoStoriesTenChapters : DBSession :=
  ⟨[⟨1, 7, 0⟩, ⟨2, 7, 0⟩],
   [⟨1, 1, 0⟩, ⟨2, 1, 0⟩, ⟨3, 1, 0⟩, ⟨4, 1, 0⟩, ⟨5, 1, 0⟩, ⟨6, 1, 0⟩,
    ⟨7, 2, 0⟩, ⟨8, 2, 0⟩, ⟨9, 2, 0⟩, ⟨10, 2, 0⟩], true⟩

set_option linter.unnecessarySeqFocus false in
theorem story_check_snd (fp : FloodProtection) (user_id : Int)
    (db : DBSession) (now1 now2 : Int) :
    (fp.check_rate_limit user_id db now1 now2).2 = db := by
  obtain ⟨st, ch, av⟩ := db
  cases av <;>
    simp only [FloodProtection.check_rate_limit, DBSession.execute_story_count,
      Bool.false_eq_true, if_false, if_true] <;>
    first
      | rfl
      | (split <;> rfl)

set_option linter.unnecessarySeqFocus false in
theorem chapter_check_snd (cfp : ChapterFloodProtection)
    (story_id user_id : Int) (db : DBSession) (now1 now2 : Int) :
    (cfp.check_rate_limit story_id user_id db now1 now2).2 = db := by
  obtain ⟨st, ch, av⟩ := db
  cases av <;>
    simp only [ChapterFloodProtection.check_rate_limit, DBSession.execute_chapter_count,
      Bool.false_eq_true, if_false, if_true] <;>
    first
      | rfl
      | (split <;> rfl)

theorem story_check_fst (fp : FloodProtection) (user_id : Int)
    (db : DBSession) (now1 now2 : Int) (hav : db.available = true) :
    (fp.check_rate_limit user_id db now1 now2).1 =
      if fp.max_stories ≤ db.story_count_query user_id (now1 - 60 * fp.time_window) then
        .error (.httpException 429
          ("Rate limit exceeded. You can create new story in " ++
            toString ((remaining_time_calc fp.time_window now1 now2).tdiv 60) ++
            " minutes and " ++
            toString ((remaining_time_calc fp.time_window now1 now2).emod 60) ++ " seconds"))
      else .ok true := by
  simp only [FloodProtection.check_rate_limit, DBSession.execute_story_count, hav, if_true]
  split <;> rfl

theorem chapter_check_fst (cfp : ChapterFloodProtection)
    (story_id user_id : Int) (db : DBSession) (now1 now2 : Int) (hav : db.available = true) :
    (cfp.check_rate_limit story_id user_id db now1 now2).1 =
      if cfp.max_chapters ≤ db.chapter_count_query user_id (now1 - 60 * cfp.time_window) then
        .error (.httpException 429
          ("Rate limit exceeded. You can create new chapter in " ++
            toString ((remaining_time_calc cfp.time_window now1 now2).tdiv 60) ++
            " minutes and " ++
            toString ((remaining_time_calc cfp.time_window now1 now2).emod 60) ++ " seconds"))
      else .ok true := by
  simp only [ChapterFloodProtection.check_rate_limit, DBSession.execute_chapter_count, hav,
    if_true]
  split <;> rfl

theorem story_check_denied_iff (fp : FloodProtection) (user_id : Int)
    (db : DBSession) (now1 now2 : Int) (hav : db.available = true) :
    isRateLimited (fp.check_rate_limit user_id db now1 now2).1 = true ↔
      fp.max_stories ≤ db.story_count_query user_id (now1 - 60 * fp.time_window) := by
  rw [story_check_fst fp user_id db now1 now2 hav]
  split <;> rename_i h <;> simp [isRateLimited, h]

theorem story_check_allowed_iff (fp : FloodProtection) (user_id : Int)
    (db : DBSession) (now1 now2 : Int) (hav : db.available = true) :
    (fp.check_rate_limit user_id db now1 now2).1 = .ok true ↔
      db.story_count_query user_id (now1 - 60 * fp.time_window) < fp.max_stories := by
  rw [story_check_fst fp user_id db now1 now2 hav]
  split <;> rename_i h <;> simp <;> omega

theorem chapter_check_denied_iff (cfp : ChapterFloodProtection) (story_id user_id : Int)
    (db : DBSession) (now1 now2 : Int) (hav : db.available = true) :
    isRateLimited (cfp.check_rate_limit story_id user_id db now1 now2).1 = true ↔
      cfp.max_chapters ≤ db.chapter_count_query user_id (now1 - 60 * cfp.time_window) := by
  rw [chapter_check_fst cfp story_id user_id db now1 now2 hav]
  split <;> rename_i h <;> simp [isRateLimited, h]

theorem chapter_check_allowed_iff (cfp : ChapterFloodProtection) (story_id user_id : Int)
    (db : DBSession) (now1 now2 : Int) (hav : db.available = true) :
    (cfp.check_rate_limit story_id user_id db now1 now2).1 = .ok true ↔
      db.chapter_count_query user_id (now1 - 60 * cfp.time_window) < cfp.max_chapters := by
  rw [chapter_check_fst cfp story_id user_id db now1 now2 hav]
  split <;> rename_i h <;> simp <;> omega

/-- C10: `ChapterFloodProtection.check_rate_limit` ignores its `story_id`
argument: for a fixed user, database state and clock readings, two calls
that differ only in `story_id` return identical outcomes (same decision,
same denial message, same resulting session), because the counting query
filters only on the parent story's author and the chapter timestamp. -/
theorem c10_story_id_irrelevant (cfp : ChapterFloodProtection)
    (story_id story_id' user_id : Int) (db : DBSession) (now1 now2 : Int) :
    cfp.check_rate_limit story_id user_id db now1 now2 =
      cfp.check_rate_limit story_id' user_id db now1 now2 := rfl

/-- C8: both rate-limit checks are pure reads: they return the database
session unchanged (the only query they run is a `SELECT count`), and
therefore a repeated check on the state left by a previous check — with
the same clock readings and no intervening creation — yields the same
outcome. -/
theorem c8_check_rate_limit_read_only (fp : FloodProtection) (cfp : ChapterFloodProtection)
    (user_id story_id : Int) (db : DBSession) (now1 now2 : Int) :
    (fp.check_rate_limit user_id db now1 now2).2 = db ∧
    (cfp.check_rate_limit story_id user_id db now1 now2).2 = db ∧
    (fp.check_rate_limit user_id (fp.check_rate_limit user_id db now1 now2).2 now1 now2).1 =
      (fp.check_rate_limit user_id db now1 now2).1 ∧
    (cfp.check_rate_limit story_id user_id
        (cfp.check_rate_limit story_id user_id db now1 now2).2 now1 now2).1 =
      (cfp.check_rate_limit story_id user_id db now1 now2).1 := by
  refine ⟨story_check_snd fp user_id db now1 now2,
    chapter_check_snd cfp story_id user_id db now1 now2, ?_, ?_⟩
  · rw [story_check_snd fp user_id db now1 now2]
  · rw [chapter_check_snd cfp story_id user_id db now1 now2]

/-- C4: the admission decision is exactly the threshold comparison, for
both limiters: a check is the 429 rate-limit denial iff the window count
has reached `max_stories` (resp. `max_chapters`), and it returns normally
(`.ok true`) iff the window count is strictly below the threshold — so
exactly `N` in-window events deny and `N - 1` allow. -/
theorem c4_denied_iff_count_reaches_max (fp : FloodProtection) (cfp : ChapterFloodProtection)
    (user_id story_id : Int) (db : DBSession) (now1 now2 : Int)
    (hav : db.available = true) :
    (isRateLimited (fp.check_rate_limit user_id db now1 now2).1 = true ↔
      fp.max_stories ≤ db.story_count_query user_id (now1 - 60 * fp.time_window)) ∧
    ((fp.check_rate_limit user_id db now1 now2).1 = .ok true ↔
      db.story_count_query user_id (now1 - 60 * fp.time_window) < fp.max_stories) ∧
    (isRateLimited (cfp.check_rate_limit story_id user_id db now1 now2).1 = true ↔
      cfp.max_chapters ≤ db.chapter_count_query user_id (now1 - 60 * cfp.time_window)) ∧
    ((cfp.check_rate_limit story_id user_id db now1 now2).1 = .ok true ↔
      db.chapter_count_query user_id (now1 - 60 * cfp.time_window) < cfp.max_chapters) :=
  ⟨story_check_denied_iff fp user_id db now1 now2 hav,
   story_check_allowed_iff fp user_id db now1 now2 hav,
   chapter_check_denied_iff cfp story_id user_id db now1 now2 hav,
   chapter_check_allowed_iff cfp story_id user_id db now1 now2 hav⟩

/-- Witness for C4: on the concrete session with exactly 5 stories in the
window the story check under the default policy denies, and on the session
with 4 stories it allows; the boundary instance of the theorem holds at
these inputs. -/
theorem c4_denied_iff_count_reaches_max_witness :
    (dbFive.available = true ∧
      ((isRateLimited (flood_protection.check_rate_limit 1 dbFive 600 600).1 = true ↔
          flood_protection.max_stories ≤
            dbFive.story_count_query 1 (600 - 60 * flood_protection.time_window)) ∧
        ((flood_protection.check_rate_limit 1 dbFive 600 600).1 = .ok true ↔
          dbFive.story_count_query 1 (600 - 60 * flood_protection.time_window) <
            flood_protection.max_stories) ∧
        (isRateLimited
            ((⟨10, 20⟩ : ChapterFloodProtection).check_rate_limit 1 1 dbFive 600 600).1 = true ↔
          (10 : Int) ≤ dbFive.chapter_count_query 1 (600 - 60 * 20)) ∧
        (((⟨10, 20⟩ : ChapterFloodProtection).check_rate_limit 1 1 dbFive 600 600).1 =
            .ok true ↔
          dbFive.chapter_count_query 1 (600 - 60 * 20) < 10))) ∧
    isRateLimited (flood_protection.check_rate_limit 1 dbFive 600 600).1 = true ∧
    (flood_protection.check_rate_limit 1 dbFour 600 600).1 = .ok true :=
  ⟨⟨rfl, c4_denied_iff_count_reaches_max flood_protection ⟨10, 20⟩ 1 1 dbFive 600 600 rfl⟩,
   by decide, by decide⟩

/-- Five stories by author 1 at time 0 plus ten chapters under story 1:
both limiters' thresholds are reached for author 1. -/
def dbFiveTen : DBSession :=
  ⟨[⟨1, 1, 0⟩, ⟨2, 1, 0⟩, ⟨3, 1, 0⟩, ⟨4, 1, 0⟩, ⟨5, 1, 0⟩],
   [⟨1, 1, 0⟩, ⟨2, 1, 0⟩, ⟨3, 1, 0⟩, ⟨4, 1, 0⟩, ⟨5, 1, 0⟩, ⟨6, 1, 0⟩,
    ⟨7, 1, 0⟩, ⟨8, 1, 0⟩, ⟨9, 1, 0⟩, ⟨10, 1, 0⟩], true⟩

/-- The session `dbFive` with the store marked unavailable: every query on
it raises. -/
def dbFiveDown : DBSession :=
  ⟨[⟨1, 1, 0⟩, ⟨2, 1, 0⟩, ⟨3, 1, 0⟩, ⟨4, 1, 0⟩, ⟨5, 1, 0⟩], [], false⟩

theorem tdiv_sixty_nonpos {a : Int} (h : a ≤ 0) : a.tdiv 60 ≤ 0 := by
  have h2 : 0 ≤ (-a).tdiv 60 := Int.tdiv_nonneg (by omega) (by norm_num)
  rw [Int.neg_tdiv] at h2
  omega

/-- C2 counterexample: with the five-story session, first clock reading 10
and second clock reading 11 (one second elapsed across the awaited counting
query), the check denies, yet the computed `remaining_time` is `-1` — a
negative duration, so it is not clamped to a non-negative one. -/
theorem c2_retry_after_negative_counterexample :
    isRateLimited (flood_protection.check_rate_limit 1 dbFive 10 11).1 = true ∧
    remaining_time_calc flood_protection.time_window 10 11 = -1 ∧
    ¬(0 ≤ remaining_time_calc flood_protection.time_window 10 11) := by
  decide

set_option linter.unusedVariables false in
/-- C2 amended: for every denied check the computed `remaining_time` equals
`now1 - now2`, the (negated) time elapsed between the two clock readings —
the window cancels out of `time_threshold + window - now2`.  It is
therefore non-positive (not non-negative: no clamping occurs), and in
particular still at most `policy.window`. -/
theorem c2_denied_retry_after_nonpositive (fp : FloodProtection) (user_id : Int)
    (db : DBSession) (now1 now2 : Int)
    (hden : isRateLimited (fp.check_rate_limit user_id db now1 now2).1 = true)
    (h12 : now1 ≤ now2) (hw : 0 ≤ fp.time_window) :
    remaining_time_calc fp.time_window now1 now2 = now1 - now2 ∧
    remaining_time_calc fp.time_window now1 now2 ≤ 0 ∧
    remaining_time_calc fp.time_window now1 now2 ≤ 60 * fp.time_window := by
  unfold remaining_time_calc
  omega

/-- Witness for C2 amended: the theorem instantiated at the denied check of
`c2_retry_after_negative_counterexample`'s scenario but with clock readings
10 and 12. -/
theorem c2_denied_retry_after_nonpositive_witness :
    (isRateLimited (flood_protection.check_rate_limit 1 dbFive 10 12).1 = true ∧
      (10 : Int) ≤ 12 ∧ (0 : Int) ≤ flood_protection.time_window) ∧
    (remaining_time_calc flood_protection.time_window 10 12 = 10 - 12 ∧
      remaining_time_calc flood_protection.time_window 10 12 ≤ 0 ∧
      remaining_time_calc flood_protection.time_window 10 12 ≤
        60 * flood_protection.time_window) :=
  ⟨⟨by decide, by decide, by decide⟩,
   c2_denied_retry_after_nonpositive flood_protection 1 dbFive 10 12 (by decide)
     (by decide) (by decide)⟩

/-- C3 evaluated at the spec's scenario: five stories created at t = 0 and
a check one second later (both clock readings at 1).  The check denies, but
the computed remaining time is 0 seconds — not the claimed ≈ 20 minutes
(1200 seconds): `time_threshold + window - now` cancels algebraically to
the gap between the two clock readings, so the code never produces the
worst-case-window estimate. -/
theorem c3_denied_retry_after_is_zero_not_window :
    (flood_protection.check_rate_limit 1 dbFive 1 1).1 =
      .error (.httpException 429
        "Rate limit exceeded. You can create new story in 0 minutes and 0 seconds") ∧
    remaining_time_calc flood_protection.time_window 1 1 = 0 ∧
    60 * flood_protection.time_window = 1200 ∧
    remaining_time_calc flood_protection.time_window 1 1 ≠ 1200 := by
  decide

/-- C7 counterexample: a denied check whose second clock reading is 60
seconds after the first (the counting query took a minute) surfaces the
message "... in -1 minutes and 0 seconds": the minutes figure is negative,
refuting "never negative". -/
theorem c7_negative_minutes_counterexample :
    (flood_protection.check_rate_limit 1 dbFive 10 70).1 =
      .error (.httpException 429
        "Rate limit exceeded. You can create new story in -1 minutes and 0 seconds") ∧
    (remaining_time_calc flood_protection.time_window 10 70).tdiv 60 = -1 ∧
    (-1 : Int) < 0 := by
  decide

/-- C7 amended: every denial surfaces exactly the message "Rate limit
exceeded. You can create new story in -m- minutes and -s- seconds"
(respectively "...new chapter in..."), where m is `remaining_time`
divided by 60 truncated toward zero and s is the Python modulus
`remaining_time % 60`.  The seconds figure always lies in [0, 60); the
minutes figure is non-positive whenever the clock readings are monotone,
and can be negative (it is not clamped). -/
theorem c7_denial_message_format (fp : FloodProtection) (cfp : ChapterFloodProtection)
    (user_id story_id : Int) (db : DBSession) (now1 now2 : Int)
    (hav : db.available = true)
    (hs : fp.max_stories ≤ db.story_count_query user_id (now1 - 60 * fp.time_window))
    (hc : cfp.max_chapters ≤ db.chapter_count_query user_id (now1 - 60 * cfp.time_window)) :
    (fp.check_rate_limit user_id db now1 now2).1 =
      .error (.httpException 429
        ("Rate limit exceeded. You can create new story in " ++
          toString ((remaining_time_calc fp.time_window now1 now2).tdiv 60) ++
          " minutes and " ++
          toString ((remaining_time_calc fp.time_window now1 now2).emod 60) ++ " seconds")) ∧
    (cfp.check_rate_limit story_id user_id db now1 now2).1 =
      .error (.httpException 429
        ("Rate limit exceeded. You can create new chapter in " ++
          toString ((remaining_time_calc cfp.time_window now1 now2).tdiv 60) ++
          " minutes and " ++
          toString ((remaining_time_calc cfp.time_window now1 now2).emod 60) ++ " seconds")) ∧
    0 ≤ (remaining_time_calc fp.time_window now1 now2).emod 60 ∧
    (remaining_time_calc fp.time_window now1 now2).emod 60 < 60 ∧
    (now1 ≤ now2 → (remaining_time_calc fp.time_window now1 now2).tdiv 60 ≤ 0) := by
  refine ⟨?_, ?_, Int.emod_nonneg _ (by norm_num), Int.emod_lt_of_pos _ (by norm_num), ?_⟩
  · rw [story_check_fst fp user_id db now1 now2 hav, if_pos hs]
  · rw [chapter_check_fst cfp story_id user_id db now1 now2 hav, if_pos hc]
  · intro h12
    apply tdiv_sixty_nonpos
    unfold remaining_time_calc
    omega

/-- Witness for C7 amended: the theorem instantiated on the session where
both limiters are at their thresholds, with clock readings 10 and 70. -/
theorem c7_denial_message_format_witness :
    (dbFiveTen.available = true ∧
      flood_protection.max_stories ≤
        dbFiveTen.story_count_query 1 (10 - 60 * flood_protection.time_window) ∧
      (10 : Int) ≤ dbFiveTen.chapter_count_query 1 (10 - 60 * 20)) ∧
    ((flood_protection.check_rate_limit 1 dbFiveTen 10 70).1 =
      .error (.httpException 429
        ("Rate limit exceeded. You can create new story in " ++
          toString ((remaining_time_calc flood_protection.time_window 10 70).tdiv 60) ++
          " minutes and " ++
          toString ((remaining_time_calc flood_protection.time_window 10 70).emod 60) ++
          " seconds")) ∧
    ((⟨10, 20⟩ : ChapterFloodProtection).check_rate_limit 2 1 dbFiveTen 10 70).1 =
      .error (.httpException 429
        ("Rate limit exceeded. You can create new chapter in " ++
          toString ((remaining_time_calc 20 10 70).tdiv 60) ++
          " minutes and " ++
          toString ((remaining_time_calc 20 10 70).emod 60) ++ " seconds")) ∧
    0 ≤ (remaining_time_calc flood_protection.time_window 10 70).emod 60 ∧
    (remaining_time_calc flood_protection.time_window 10 70).emod 60 < 60 ∧
    ((10 : Int) ≤ 70 → (remaining_time_calc flood_protection.time_window 10 70).tdiv 60 ≤ 0)) :=
  ⟨⟨rfl, by decide, by decide⟩,
   c7_denial_message_format flood_protection ⟨10, 20⟩ 1 2 dbFiveTen 10 70 rfl (by decide)
     (by decide)⟩

set_option linter.unusedVariables false in
/-- C9: when the counting query cannot be executed the limiter propagates
the store-level failure unchanged: the check's outcome is the
`storeFailure` signal, which is a different constructor from the 429
`httpException` denial and from the normal `.ok true` return, and the
`create_story` handler turns it into HTTP 500 "Failed to create story"
without inserting a row — never into a 429 and never into an admission. -/
theorem c9_store_failure_distinct_signal (story : StoryCreate) (current_user : UserRow)
    (db : DBSession) (handle_image_upload : String → Except Unit String)
    (new_id new_created_at now1 now2 : Int)
    (hunav : db.available = false) (hactive : current_user.is_active = true) :
    (flood_protection.check_rate_limit current_user.id db now1 now2).1 =
      .error .storeFailure ∧
    isRateLimited (flood_protection.check_rate_limit current_user.id db now1 now2).1 =
      false ∧
    (flood_protection.check_rate_limit current_user.id db now1 now2).1 ≠ .ok true ∧
    (∀ s d, PyError.storeFailure ≠ PyError.httpException s d) ∧
    create_story story current_user db handle_image_upload new_id new_created_at now1 now2 =
      ⟨500, "Failed to create story", db⟩ := by
  have h1 : flood_protection.check_rate_limit current_user.id db now1 now2 =
      (.error .storeFailure, db) := by
    simp only [FloodProtection.check_rate_limit, DBSession.execute_story_count, hunav,
      Bool.false_eq_true, if_false]
  refine ⟨by rw [h1], by rw [h1]; rfl, by rw [h1]; simp, fun s d => by simp, ?_⟩
  unfold create_story
  rw [hactive, h1]
  simp

/-- Witness for C9: the theorem instantiated on the unavailable session
`dbFiveDown`, an active user and a well-formed story body. -/
theorem c9_store_failure_distinct_signal_witness :
    (dbFiveDown.available = false ∧ (⟨1, true⟩ : UserRow).is_active = true) ∧
    ((flood_protection.check_rate_limit (1 : Int) dbFiveDown 10 11).1 =
      .error .storeFailure ∧
    isRateLimited (flood_protection.check_rate_limit (1 : Int) dbFiveDown 10 11).1 = false ∧
    (flood_protection.check_rate_limit (1 : Int) dbFiveDown 10 11).1 ≠ .ok true ∧
    (∀ s d, PyError.storeFailure ≠ PyError.httpException s d) ∧
    create_story ⟨"Valid title", none⟩ ⟨1, true⟩ dbFiveDown (fun u => .ok u) 6 12 10 11 =
      ⟨500, "Failed to create story", dbFiveDown⟩) :=
  ⟨⟨rfl, rfl⟩,
   c9_store_failure_distinct_signal ⟨"Valid title", none⟩ ⟨1, true⟩ dbFiveDown
     (fun u => .ok u) 6 12 10 11 rfl rfl⟩

/-- One story (id 1, author 7) and ten chapters under it, all inside any
20-minute window around time 0: author 7 is at the chapter policy's limit. -/
def dbChaptersAtLimit : DBSession :=
  ⟨[⟨1, 7, 0⟩],
   [⟨1, 1, 0⟩, ⟨2, 1, 0⟩, ⟨3, 1, 0⟩, ⟨4, 1, 0⟩, ⟨5, 1, 0⟩, ⟨6, 1, 0⟩,
    ⟨7, 1, 0⟩, ⟨8, 1, 0⟩, ⟨9, 1, 0⟩, ⟨10, 1, 0⟩], true⟩

/-- C1 evaluated at the claim's scenario: author 7 already has
`max_chapters = 10` chapters in the window, so
`ChapterFloodProtection.check_rate_limit` would deny with 429 — yet the
`create_chapter` handler, which never calls it, admits the 11th chapter:
it returns status 200 and inserts the row (the chapter table grows to 11),
not a 429 denial. -/
theorem c1_chapter_route_inserts_without_flood_check :
    isRateLimited
      ((⟨10, 20⟩ : ChapterFloodProtection).check_rate_limit 1 7 dbChaptersAtLimit 5 5).1 =
        true ∧
    (create_chapter ⟨"t", "c", 11, 1⟩ ⟨7, true⟩ dbChaptersAtLimit 11 5).status = 200 ∧
    (create_chapter ⟨"t", "c", 11, 1⟩ ⟨7, true⟩ dbChaptersAtLimit 11 5).db.chapters.length =
      11 ∧
    (create_chapter ⟨"t", "c", 11, 1⟩ ⟨7, true⟩ dbChaptersAtLimit 11 5).status ≠ 429 := by
  decide

theorem countP_partition_threshold (l : List StoryRow) (th : Int) :
    l.countP (fun s => decide (th ≤ s.created_at)) +
      l.countP (fun s => decide (s.created_at < th)) = l.length := by
  induction l with
  | nil => simp
  | cons s t ih =>
    simp only [List.countP_cons, List.length_cons]
    by_cases h : th ≤ s.created_at
    · have h2 : ¬(s.created_at < th) := by omega
      simp [h, h2]
      omega
    · have h2 : s.created_at < th := by omega
      simp [h, h2]
      omega

set_option linter.unusedVariables false in
/-- C6: the counting query keeps only events with
`created_at >= now1 - window`; consequently, when the author's stories are
N in total and at least `N - max_stories + 1` of them are strictly older
than the window start, the in-window count is at most `max_stories - 1`
and the check returns normally (`.ok true`). -/
theorem c6_stale_events_excluded_allows (fp : FloodProtection) (user_id : Int)
    (db : DBSession) (now1 now2 : Int) (hav : db.available = true)
    (hall : ∀ s ∈ db.stories, s.author_id = user_id)
    (hold : (db.stories.length : Int) - fp.max_stories + 1 ≤
      (db.stories.countP
        (fun s => decide (s.created_at < now1 - 60 * fp.time_window)) : Int)) :
    (fp.check_rate_limit user_id db now1 now2).1 = .ok true := by
  rw [story_check_allowed_iff fp user_id db now1 now2 hav]
  unfold DBSession.story_count_query
  have hcongr : db.stories.countP
      (fun s => s.author_id == user_id &&
        decide (now1 - 60 * fp.time_window ≤ s.created_at)) =
      db.stories.countP (fun s => decide (now1 - 60 * fp.time_window ≤ s.created_at)) := by
    apply List.countP_congr
    intro s hs
    simp [hall s hs]
  have hpart := countP_partition_threshold db.stories (now1 - 60 * fp.time_window)
  rw [hcongr]
  omega

/-- Six stories by author 1: two created at time -10000 (far before the
window start -600 of a check at time 600) and four at time 0 (inside the
window). -/
def dbSixStale : DBSession :=
  ⟨[⟨1, 1, -10000⟩, ⟨2, 1, -10000⟩, ⟨3, 1, 0⟩, ⟨4, 1, 0⟩, ⟨5, 1, 0⟩, ⟨6, 1, 0⟩], [], true⟩

/-- Witness for C6: author 1 made 6 stories in total, but only 4 are inside
the 20-minute window of a check at time 600, so the check allows. -/
theorem c6_stale_events_excluded_allows_witness :
    (dbSixStale.available = true ∧
      (∀ s ∈ dbSixStale.stories, s.author_id = 1) ∧
      (dbSixStale.stories.length : Int) - flood_protection.max_stories + 1 ≤
        (dbSixStale.stories.countP
          (fun s => decide (s.created_at < 600 - 60 * flood_protection.time_window)) : Int)) ∧
    (flood_protection.check_rate_limit 1 dbSixStale 600 601).1 = .ok true :=
  ⟨⟨rfl, by decide, by decide⟩,
   c6_stale_events_excluded_allows flood_protection 1 dbSixStale 600 601 rfl (by decide)
     (by decide)⟩

theorem join_filter_count_one (stories : List StoryRow) (c : ChapterRow)
    (user_id time_threshold : Int)
    (hnd : (stories.map StoryRow.id).Nodup) :
    (((stories.filter (fun s => s.id == c.story_id)).map (fun s => (c, s))).filter
      (fun r => r.2.author_id == user_id && decide (time_threshold ≤ r.1.created_at))).length =
      if decide (time_threshold ≤ c.created_at) &&
          stories.any (fun s => s.id == c.story_id && s.author_id == user_id) then 1
      else 0 := by
  induction stories with
  | nil => simp
  | cons s t ih =>
    rw [List.map_cons] at hnd
    obtain ⟨hnotin, hndt⟩ := List.nodup_cons.mp hnd
    by_cases h : s.id = c.story_id
    · have hfilt : t.filter (fun s' => s'.id == c.story_id) = [] := by
        rw [List.filter_eq_nil_iff]
        intro x hx
        have : x.id ≠ s.id := by
          intro he
          exact hnotin (he ▸ List.mem_map_of_mem StoryRow.id hx)
        simp [h ▸ this]
      have hany : t.any (fun s' => s'.id == c.story_id && s'.author_id == user_id) = false := by
        rw [List.any_eq_false]
        intro x hx
        have : x.id ≠ s.id := by
          intro he
          exact hnotin (he ▸ List.mem_map_of_mem StoryRow.id hx)
        simp [h ▸ this]
      simp only [List.filter_cons, List.any_cons, h, beq_self_eq_true, if_true, hfilt, hany,
        Bool.or_false, List.map_cons, List.map_nil]
      by_cases ha : s.author_id = user_id
      · by_cases hw : time_threshold ≤ c.created_at
        · simp [ha, hw, List.filter_cons]
        · simp [ha, hw, List.filter_cons]
      · simp [ha, List.filter_cons]
    · have hside : (s.id == c.story_id) = false := by simp [h]
      simp only [List.filter_cons, List.any_cons, hside, Bool.false_and, Bool.false_or,
        if_false]
      exact ih hndt

theorem join_count_eq_ownership_count (chapters : List ChapterRow) (stories : List StoryRow)
    (user_id time_threshold : Int)
    (hnd : (stories.map StoryRow.id).Nodup) :
    ((chapters.flatMap (fun c =>
        (stories.filter (fun s => s.id == c.story_id)).map (fun s => (c, s)))).filter
      (fun r => r.2.author_id == user_id && decide (time_threshold ≤ r.1.created_at))).length =
      chapters.countP (fun c => decide (time_threshold ≤ c.created_at) &&
        stories.any (fun s => s.id == c.story_id && s.author_id == user_id)) := by
  induction chapters with
  | nil => simp
  | cons c cs ih =>
    simp only [List.flatMap_cons, List.filter_append, List.length_append, List.countP_cons, ih]
    rw [join_filter_count_one stories c user_id time_threshold hnd]
    omega

/-- C5: when story ids are unique (they are the table's primary key), the
chapter-counting join attributes each chapter through story ownership: the
count equals the number of chapters whose `created_at` is inside the window
and whose parent story (looked up by `story_id`) has `author_id` equal to
the actor — so chapters under any two stories owned by the same author
accumulate in one shared quota, and no chapter-level actor field is
consulted. -/
theorem c5_chapter_quota_attributed_via_story_ownership (db : DBSession)
    (user_id time_threshold : Int)
    (hnodup : (db.stories.map StoryRow.id).Nodup) :
    db.chapter_count_query user_id time_threshold =
      ((db.chapters.countP (fun c => decide (time_threshold ≤ c.created_at) &&
        db.stories.any (fun s => s.id == c.story_id && s.author_id == user_id))) : Int) := by
  unfold DBSession.chapter_count_query DBSession.chapter_join_rows
  exact congrArg Nat.cast
    (join_count_eq_ownership_count db.chapters db.stories user_id time_threshold hnodup)

/-- Witness for C5: author 7 owns stories 1 and 2 with 6 and 4 in-window
chapters respectively; the theorem instantiates there, the attributed count
is the shared total 10, and the chapter check under the default policy
denies the 11th creation attempt on either story. -/
theorem c5_chapter_quota_attributed_via_story_ownership_witness :
    (dbTwoStoriesTenChapters.stories.map StoryRow.id).Nodup ∧
    (dbTwoStoriesTenChapters.chapter_count_query 7 (-600) =
      ((dbTwoStoriesTenChapters.chapters.countP (fun c => decide ((-600 : Int) ≤ c.created_at) &&
        dbTwoStoriesTenChapters.stories.any
          (fun s => s.id == c.story_id && s.author_id == 7))) : Int)) ∧
    dbTwoStoriesTenChapters.chapter_count_query 7 (-600) = 10 ∧
    isRateLimited
      ((⟨10, 20⟩ : ChapterFloodProtection).check_rate_limit 1 7
        dbTwoStoriesTenChapters 600 600).1 = true ∧
    isRateLimited
      ((⟨10, 20⟩ : ChapterFloodProtection).check_rate_limit 2 7
        dbTwoStoriesTenChapters 600 600).1 = true :=
  ⟨by decide,
   c5_chapter_quota_attributed_via_story_ownership dbTwoStoriesTenChapters 7 (-600)
     (by decide),
   by decide, by decide, by decide⟩
